import Mathlib

/-!
Formal model of the reanalysis/polling controller of the ReferenceChecker
frontend (`frontend/src/pages/ReportPage.jsx`), the component the
specification calls the Reanalysis Poller, together with the periodic
background refresher and the unmount/liveness guard of the same file.

The embedding is a shallow one.  The single-threaded cooperative event
loop is modelled by linearising the asynchronous continuations of one
reanalysis cycle into numbered resume points:

  point 0 : the synchronous body of the click handler `handleReanalyze`;
  point 1 : the continuation of `await referenceAPI.reanalyze(id)`;
  point 2 : the continuation of the 2000 ms settling `setTimeout`;
  point 2k+1 : the continuation of the k-th `await referenceAPI.getReference(id)`
               issued by `pollForResults` (k = 1, 2, ...);
  point 2k+2 : the continuation of the k-th 1000 ms inter-poll `setTimeout`.

Detaching the view at some instant makes the liveness flag
(`isMounted.current`) read `false` at every later resume point; this is
modelled by a function `mountedAt : Nat → Bool` that is true exactly on
the points preceding the detach instant.  The execution of a cycle is
recorded as a list of events, each paired with the value the liveness
flag had when the event happened, so that "a state mutation occurred
after the detach instant" is the presence of a mutation event paired
with `false`.
-/

namespace RefChecker

/-- Backend status of a reference record
(`queued`, `processing`, `completed`, `failed`). -/
inductive Status
  | queued
  | processing
  | completed
  | failed
deriving DecidableEq, Repr

/-- The `reference` object inside a `getReference` response.  Only the
`status` field is consulted by the control logic of `ReportPage.jsx`;
the remaining fields (url, title, author, ...) and the sibling `report`
payload are display-only and are therefore omitted. -/
structure Reference where
  status : Status
deriving DecidableEq, Repr

/-- The `response.data` payload of `referenceAPI.getReference`, i.e. the
value stored into the `data` state slot by `setData(response.data)`. -/
structure RespData where
  reference : Reference
deriving DecidableEq, Repr

/-- Result of one `referenceAPI.getReference` call: either a resolved
response carrying its payload, or a rejected promise. -/
inductive FetchResult
  | ok (d : RespData)
  | err
deriving DecidableEq, Repr

/-- Whether a fetch result is a resolved response whose record still has
status `processing` (the condition of the recursion guard on line 245 of
`ReportPage.jsx`). -/
def FetchResult.isProcessing : FetchResult → Bool
  | .ok d => decide (d.reference.status = Status.processing)
  | .err => false

/-- The four timers of `ReportPage.jsx`: the 3000 ms background-refresher
interval (line 198), the 2000 ms settling delay (line 236), the 1000 ms
inter-poll delay (line 247) and the 3000 ms success-notification
auto-clear timeout (line 267). -/
inductive TimerKind
  | refresher
  | settling
  | interPoll
  | successClear
deriving DecidableEq, Repr

/-- The observable state mutations of `ReportPage.jsx`: the five React
state setters. -/
inductive Mut
  | setData (d : RespData)
  | setLoading (b : Bool)
  | setError (s : String)
  | setReanalyzing (b : Bool)
  | setShowSuccessMessage (b : Bool)
deriving DecidableEq, Repr

/-- Events recorded while executing a reanalysis cycle. -/
inductive Ev
  | mut (m : Mut)
  | fetchCall
  | triggerCall
  | logError
  | timerSet (t : TimerKind)
  | timerFired (t : TimerKind)
deriving DecidableEq, Repr

/-- Whether an event is an observable state mutation. -/
def Ev.isMut : Ev → Bool
  | .mut _ => true
  | _ => false

/-- Whether an event is a `setData` mutation. -/
def Ev.isSetData : Ev → Bool
  | .mut (Mut.setData _) => true
  | _ => false

/-- Whether an event is a `setError` mutation. -/
def Ev.isSetError : Ev → Bool
  | .mut (Mut.setError _) => true
  | _ => false

/-- Whether an event is the firing of a timer for which the code keeps no
handle: the settling delay and the inter-poll delay are bare
`setTimeout(resolve, ...)` calls inside promises (lines 236 and 247),
so the unmount cleanup (lines 204-210) cannot cancel them, while the
refresher interval and the success-notification timeout are cancelled
there via `clearInterval` / `clearTimeout`. -/
def Ev.isBareTimerFire : Ev → Bool
  | .timerFired TimerKind.settling => true
  | .timerFired TimerKind.interPoll => true
  | _ => false

/-- How the `pollForResults` promise resolved: via the `setData` branch
(lines 251-253, the spec's `succeeded` phase carrying the fetched
record), or via the `catch (pollError)` branch (lines 255-260). -/
inductive PollOutcome
  | stored (d : RespData)
  | errored
deriving DecidableEq, Repr

/-- The recorded execution of one run of `pollForResults`: its event
list, the resume point at which the promise resolved, and how it
resolved. -/
structure PollRun where
  events : List (Ev × Bool)
  endPoint : Nat
  outcome : PollOutcome
deriving DecidableEq, Repr

/-- The string passed to `setError` in the `catch (pollError)` branch of
`pollForResults` (line 258). -/
def pollErrMsg : String := "Analysis may still be in progress. Please refresh."

/-- The string passed to `setError` in the `catch (err)` branch of
`handleReanalyze` (line 276). -/
def triggerErrMsg : String := "Failed to reanalyze. Please try again."

/-- The string passed to `setError` in the `catch (err)` branch of
`fetchReport` (line 222). -/
def loadErrMsg : String := "Failed to load report"

/-- Transcription of `pollForResults` (lines 241-261 of
`ReportPage.jsx`), instrumented with the event trace.

`fetch j` is the result of the j-th `getReference` call of the cycle
(1-based), `maxAttempts` and `attempts` are the source variables of the
same names, `k` is the index of the call about to be made, and
`mountedAt` gives the value of `isMounted.current` at each resume
point.  The call itself is issued while resuming from point `2*k`
(the settling delay for `k = 1`, the previous inter-poll delay
otherwise); its continuation runs at point `2*k + 1`.

The branch structure is that of the source: on a resolved response the
guard `status === 'processing' && attempts < maxAttempts` (line 245)
increments `attempts`, awaits the 1000 ms delay and recurses; otherwise
the guarded `setData(response.data)` (lines 251-253) runs and the
promise resolves; on a rejected fetch the `catch` logs the error and
runs the guarded `setError` (lines 255-260) and the promise resolves. -/
def pollForResults (fetch : Nat → FetchResult) (maxAttempts : Nat) (mountedAt : Nat → Bool)
    (k attempts : Nat) : PollRun :=
  match fetch k with
  | .err =>
    { events := [(Ev.fetchCall, mountedAt (2 * k)), (Ev.logError, mountedAt (2 * k + 1))] ++
        (if mountedAt (2 * k + 1) then [(Ev.mut (Mut.setError pollErrMsg), true)] else []),
      endPoint := 2 * k + 1,
      outcome := PollOutcome.errored }
  | .ok d =>
    if h : d.reference.status = Status.processing ∧ attempts < maxAttempts then
      let rest := pollForResults fetch maxAttempts mountedAt (k + 1) (attempts + 1)
      { events := (Ev.fetchCall, mountedAt (2 * k)) ::
          (Ev.timerSet TimerKind.interPoll, mountedAt (2 * k + 1)) ::
          (Ev.timerFired TimerKind.interPoll, mountedAt (2 * k + 2)) :: rest.events,
        endPoint := rest.endPoint,
        outcome := rest.outcome }
    else
      { events := [(Ev.fetchCall, mountedAt (2 * k))] ++
          (if mountedAt (2 * k + 1) then [(Ev.mut (Mut.setData d), true)] else []),
        endPoint := 2 * k + 1,
        outcome := PollOutcome.stored d }
termination_by maxAttempts - attempts
decreasing_by
  obtain ⟨-, h2⟩ := h
  omega

/-- The synchronous body of `handleReanalyze` before the first `await`
(lines 229-234): `setReanalyzing(true)`, `setError('')`,
`setShowSuccessMessage(false)`, then the `referenceAPI.reanalyze(id)`
call is issued.  All of this happens at point 0. -/
def startEvs (mountedAt : Nat → Bool) : List (Ev × Bool) :=
  [(Ev.mut (Mut.setReanalyzing true), mountedAt 0),
   (Ev.mut (Mut.setError ""), mountedAt 0),
   (Ev.mut (Mut.setShowSuccessMessage false), mountedAt 0),
   (Ev.triggerCall, mountedAt 0)]

/-- The `catch (err)` branch of `handleReanalyze` (lines 274-278)
followed by the `finally` block (lines 279-283); both continuations run
at point 1 (the rejection of the trigger call) and both mutations are
guarded by `isMounted.current`. -/
def triggerFailEvs (mountedAt : Nat → Bool) : List (Ev × Bool) :=
  (if mountedAt 1 then [(Ev.mut (Mut.setError triggerErrMsg), true)] else []) ++
  (if mountedAt 1 then [(Ev.mut (Mut.setReanalyzing false), true)] else [])

/-- The code after `await pollForResults()` (lines 265-272) and the
`finally` block (lines 279-283), both running at the resume point at
which the poll promise resolved: the guarded `setShowSuccessMessage(true)`
plus the scheduling of the success-notification auto-clear timeout, then
the guarded `setReanalyzing(false)`.  Note that this block runs no matter
how `pollForResults` resolved, because its `catch` swallows fetch errors. -/
def afterPollEvs (mountedAt : Nat → Bool) (endPt : Nat) : List (Ev × Bool) :=
  (if mountedAt endPt then
    [(Ev.mut (Mut.setShowSuccessMessage true), true),
     (Ev.timerSet TimerKind.successClear, true)]
   else []) ++
  (if mountedAt endPt then [(Ev.mut (Mut.setReanalyzing false), true)] else [])

/-- Transcription of `handleReanalyze` (lines 228-284 of
`ReportPage.jsx`) as an event trace.  `triggerOk` tells whether the
`referenceAPI.reanalyze(id)` promise resolves or rejects.  On success
the 2000 ms settling delay is scheduled at point 1 and fires at point 2
(line 236) — unconditionally and without an `isMounted` check — after
which the poll loop starts with `attempts = 0`, `maxAttempts` as given,
and its first call being call 1. -/
def handleReanalyze (triggerOk : Bool) (fetch : Nat → FetchResult) (maxAttempts : Nat)
    (mountedAt : Nat → Bool) : List (Ev × Bool) :=
  if triggerOk then
    let pr := pollForResults fetch maxAttempts mountedAt 1 0
    startEvs mountedAt ++
      [(Ev.timerSet TimerKind.settling, mountedAt 1),
       (Ev.timerFired TimerKind.settling, mountedAt 2)] ++
      pr.events ++ afterPollEvs mountedAt pr.endPoint
  else
    startEvs mountedAt ++ triggerFailEvs mountedAt

/-- The instants at which the view can detach during a cycle, expressed
as the first resume point that observes `isMounted.current = false`
(`none` meaning the view never detaches).  Detaching while the trigger
request is in flight makes point 1 the first dead point; during the
settling delay, point 2; while the k-th poll fetch is in flight, point
`2k+1`; during the k-th inter-poll delay, point `2k+2`. -/
inductive DetachPoint
  | never
  | duringTrigger
  | duringSettling
  | duringPollFetch (k : Nat)
  | duringPollSleep (k : Nat)
deriving DecidableEq, Repr

/-- The first dead resume point of a detach instant. -/
def DetachPoint.time : DetachPoint → Option Nat
  | .never => none
  | .duringTrigger => some 1
  | .duringSettling => some 2
  | .duringPollFetch k => some (2 * k + 1)
  | .duringPollSleep k => some (2 * k + 2)

/-- The liveness-flag function determined by a detach instant: the flag
reads true exactly at the resume points preceding the first dead one. -/
def mountedFn : Option Nat → Nat → Bool
  | none, _ => true
  | some deadPt, t => decide (t < deadPt)

/-- One reanalysis cycle run against a given detach instant. -/
def runCycle (triggerOk : Bool) (fetch : Nat → FetchResult) (maxAttempts : Nat)
    (d : DetachPoint) : List (Ev × Bool) :=
  handleReanalyze triggerOk fetch maxAttempts (mountedFn d.time)

/-- Number of state mutations executed at or after the detach instant. -/
def nMutsAfterDetach (evs : List (Ev × Bool)) : Nat :=
  evs.countP (fun x => x.1.isMut && !x.2)

/-- Number of firings, at or after the detach instant, of timers the
unmount cleanup cannot cancel.  A bare timer that fires after the detach
instant is exactly one that was still scheduled when the view detached
(or was even scheduled afterwards by a continuation that kept running),
so the spec's "zero pending timers remain scheduled" is the statement
that this count is zero. -/
def nLateBareTimerFires (evs : List (Ev × Bool)) : Nat :=
  evs.countP (fun x => x.1.isBareTimerFire && !x.2)

/-- Number of `getReference` calls in a trace. -/
def nFetchCalls (evs : List (Ev × Bool)) : Nat :=
  evs.countP (fun x => decide (x.1 = Ev.fetchCall))

/-- Number of schedulings of a given timer kind in a trace.  Each
recursion step of `pollForResults` both increments `attempts` and
schedules one inter-poll delay, so `nTimerSets evs TimerKind.interPoll`
is also the final value of the `attempts` counter (when it started
at 0). -/
def nTimerSets (evs : List (Ev × Bool)) (t : TimerKind) : Nat :=
  evs.countP (fun x => decide (x.1 = Ev.timerSet t))

/-- Number of `setData` mutations in a trace. -/
def nSetDataMuts (evs : List (Ev × Bool)) : Nat :=
  evs.countP (fun x => x.1.isSetData)

/-- Number of `setError` mutations in a trace. -/
def nSetErrorMuts (evs : List (Ev × Bool)) : Nat :=
  evs.countP (fun x => x.1.isSetError)

/-- Whether a given event occurs in a trace. -/
def hasEv (evs : List (Ev × Bool)) (e : Ev) : Bool :=
  evs.any (fun x => decide (x.1 = e))

/-- The five React state slots of `ReportPage` (lines 185-189). -/
structure ViewState where
  data : Option RespData
  loading : Bool
  error : String
  reanalyzing : Bool
  showSuccessMessage : Bool
deriving DecidableEq, Repr

/-- Effect of one executed state setter on the view state. -/
def applyMut (s : ViewState) : Mut → ViewState
  | Mut.setData d => { s with data := some d }
  | Mut.setLoading b => { s with loading := b }
  | Mut.setError e => { s with error := e }
  | Mut.setReanalyzing b => { s with reanalyzing := b }
  | Mut.setShowSuccessMessage b => { s with showSuccessMessage := b }

/-- The view state reached by replaying the executed mutations of a
trace, in order, over an initial state. -/
def applyEvents (s : ViewState) (evs : List (Ev × Bool)) : ViewState :=
  evs.foldl (fun st x =>
    match x.1 with
    | Ev.mut m => applyMut st m
    | _ => st) s

/-- Transcription of `fetchReport` (lines 213-226 of `ReportPage.jsx`):
on a resolved response the guarded `setData` and `setLoading(false)`
run; on a rejection the guarded `setError('Failed to load report')` and
`setLoading(false)` run.  `mounted` is the value of `isMounted.current`
when the continuation runs. -/
def fetchReport (res : FetchResult) (mounted : Bool) (s : ViewState) : ViewState :=
  match res with
  | .ok d => if mounted then { s with data := some d, loading := false } else s
  | .err => if mounted then { s with error := loadErrMsg, loading := false } else s

/-- The mutually exclusive top-level views returned by the render body of
`ReportPage` (lines 286-382).  `mainView` carries whether the success
notification box (line 369) and the error banner (line 377) are
rendered inside it. -/
inductive RenderResult
  | loadingView
  | errorPage (msg : String)
  | crash
  | inProgress
  | failedPage
  | mainView (successBox : Bool) (errorBanner : Bool)
deriving DecidableEq, Repr

/-- Transcription of the render branch structure of `ReportPage`
(lines 286-382): the loading spinner; the full-page error when `error`
is truthy and `data` is null; the destructuring
`const { reference, report } = data` which throws when `data` is null;
the in-progress view when the record is `processing` or `reanalyzing` is
set; the failed view; and otherwise the main report view, in which the
success box renders iff `showSuccessMessage` and the error banner
renders iff `error` is truthy. -/
def render (s : ViewState) : RenderResult :=
  if s.loading then RenderResult.loadingView
  else if s.error ≠ "" ∧ s.data = none then RenderResult.errorPage s.error
  else
    match s.data with
    | none => RenderResult.crash
    | some d =>
      if d.reference.status = Status.processing ∨ s.reanalyzing then RenderResult.inProgress
      else if d.reference.status = Status.failed then RenderResult.failedPage
      else RenderResult.mainView s.showSuccessMessage (s.error ≠ "")

/-- The condition of the background-refresher interval tick (line 199):
`data?.reference?.status === 'processing'`, evaluated on the `data`
binding captured by the effect's closure when the effect was installed
(the effect's dependency list is `[id]`, so the closure is not renewed
when `data` changes).  Optional chaining on `null` yields `undefined`,
which is not equal to `'processing'`. -/
def intervalTickFires (captured : Option RespData) : Bool :=
  match captured with
  | some d => decide (d.reference.status = Status.processing)
  | none => false

/-- The `data` binding captured by the mount-time installation of the
effect: `useState(null)` (line 185) and the effect running after the
first render make it `null`. -/
def initialMountCaptured : Option RespData := none

/-- Number of `getReference` calls issued by the refresher interval over
a number of ticks: each tick fetches iff its (fixed) captured condition
holds. -/
def refresherFetchCount (captured : Option RespData) (ticks : Nat) : Nat :=
  ticks * (if intervalTickFires captured then 1 else 0)

/-- The part of the report view's state that decides whether the
refresher tick and the reanalysis poller can issue concurrent fetches:
the `data` binding captured by the active interval's closure, the
current `data` state, and whether a user-triggered reanalysis cycle is
in flight (`reanalyzing`, i.e. the poller's phase is not `idle`). -/
structure MountState where
  captured : Option RespData
  data : Option RespData
  pollerActive : Bool
deriving DecidableEq, Repr

/-- The state right after the view mounts: `data` is `null`, the
mount-time interval captured that `null`, and no cycle is in flight. -/
def initialMount : MountState :=
  { captured := none, data := none, pollerActive := false }

/-- Whether the Reanalyze button can be clicked in a given state: some
record is displayed, its status is not `processing` (the processing
branch of the render, lines 309-336, shows no button), and the button is
not disabled by `reanalyzing` (lines 349 and 401). -/
def reanalyzeClickable (s : MountState) : Bool :=
  match s.data with
  | some d => !s.pollerActive && decide (d.reference.status ≠ Status.processing)
  | none => false

/-- The lifecycle actions that change the refresher-relevant state:
`load d` is a resolved report fetch (`setData`, line 217); `idChange`
is a change of the route parameter, which re-runs the `[id]` effect
(lines 194-211) so that the new interval's closure captures the `data`
value current at that moment; `startCycle` is a click on the (enabled)
Reanalyze button; `endCycle` is the cycle's `finally` resetting
`reanalyzing`. -/
inductive Act
  | load (d : RespData)
  | idChange
  | startCycle
  | endCycle
deriving DecidableEq, Repr

/-- Effect of one lifecycle action on the refresher-relevant state. -/
def stepMount (s : MountState) : Act → MountState
  | Act.load d => { s with data := some d }
  | Act.idChange => { s with captured := s.data }
  | Act.startCycle =>
    if reanalyzeClickable s then { s with pollerActive := true } else s
  | Act.endCycle => { s with pollerActive := false }

/-- The state reached from a fresh mount by a sequence of lifecycle
actions. -/
def runMount (acts : List Act) : MountState :=
  acts.foldl stepMount initialMount

/-- A record whose status is `processing`. -/
def procResp : RespData := ⟨⟨Status.processing⟩⟩

/-- A record whose status is `completed`. -/
def doneResp : RespData := ⟨⟨Status.completed⟩⟩

/-- A record whose status is `failed`. -/
def failedResp : RespData := ⟨⟨Status.failed⟩⟩

/-- A fetch oracle whose first call rejects and whose later calls return
a completed record. -/
def errThenDone : Nat → FetchResult :=
  fun k => if k = 1 then FetchResult.err else FetchResult.ok doneResp

/-- A fetch oracle whose first call returns a `processing` record and
whose later calls return a completed record. -/
def procThenDone : Nat → FetchResult :=
  fun k => if k = 1 then FetchResult.ok procResp else FetchResult.ok doneResp

/-- A view state displaying a completed report with no banner active:
the state from which a user clicks Reanalyze. -/
def restState : ViewState :=
  { data := some doneResp, loading := false, error := "",
    reanalyzing := false, showSuccessMessage := false }

/-- Whether an event is a `setShowSuccessMessage` mutation. -/
def Ev.isSetShowSuccess : Ev → Bool
  | .mut (Mut.setShowSuccessMessage _) => true
  | _ => false

/-- Number of `setShowSuccessMessage` mutations in a trace. -/
def nSetShowMuts (evs : List (Ev × Bool)) : Nat :=
  evs.countP (fun x => x.1.isSetShowSuccess)

/- ### Basic facts about the poll loop -/

theorem isProcessing_iff (r : FetchResult) :
    r.isProcessing = true ↔
      ∃ d, r = FetchResult.ok d ∧ d.reference.status = Status.processing := by
  cases r with
  | ok d => simp [FetchResult.isProcessing]
  | err => simp [FetchResult.isProcessing]

theorem pollForResults_err_step (fetch : Nat → FetchResult) (N : Nat) (m : Nat → Bool)
    (k a : Nat) (hk : fetch k = FetchResult.err) :
    pollForResults fetch N m k a =
      { events := [(Ev.fetchCall, m (2 * k)), (Ev.logError, m (2 * k + 1))] ++
          (if m (2 * k + 1) then [(Ev.mut (Mut.setError pollErrMsg), true)] else []),
        endPoint := 2 * k + 1,
        outcome := PollOutcome.errored } := by
  rw [pollForResults, hk]

theorem pollForResults_stop_step (fetch : Nat → FetchResult) (N : Nat) (m : Nat → Bool)
    (k a : Nat) (d : RespData) (hk : fetch k = FetchResult.ok d)
    (hstop : ¬(d.reference.status = Status.processing ∧ a < N)) :
    pollForResults fetch N m k a =
      { events := [(Ev.fetchCall, m (2 * k))] ++
          (if m (2 * k + 1) then [(Ev.mut (Mut.setData d), true)] else []),
        endPoint := 2 * k + 1,
        outcome := PollOutcome.stored d } := by
  rw [pollForResults, hk]
  dsimp only
  rw [dif_neg hstop]

theorem pollForResults_rec_step (fetch : Nat → FetchResult) (N : Nat) (m : Nat → Bool)
    (k a : Nat) (d : RespData) (hk : fetch k = FetchResult.ok d)
    (hgo : d.reference.status = Status.processing ∧ a < N) :
    pollForResults fetch N m k a =
      { events := (Ev.fetchCall, m (2 * k)) ::
          (Ev.timerSet TimerKind.interPoll, m (2 * k + 1)) ::
          (Ev.timerFired TimerKind.interPoll, m (2 * k + 2)) ::
          (pollForResults fetch N m (k + 1) (a + 1)).events,
        endPoint := (pollForResults fetch N m (k + 1) (a + 1)).endPoint,
        outcome := (pollForResults fetch N m (k + 1) (a + 1)).outcome } := by
  rw [pollForResults, hk]
  dsimp only
  rw [dif_pos hgo]

/-- Unrolling the first `steps` iterations of the poll loop, when the
first `steps` fetches all return `processing` records and the attempt
budget suffices: the loop makes `steps` fetch calls, schedules `steps`
inter-poll delays, executes no state mutation, and then continues as
the loop started at call `k + steps` with `attempts = a + steps`. -/
theorem pollForResults_unroll (fetch : Nat → FetchResult) (N : Nat) (m : Nat → Bool)
    (steps : Nat) :
    ∀ k a : Nat,
      (∀ j, j < steps → (fetch (k + j)).isProcessing = true) →
      a + steps ≤ N →
      nFetchCalls (pollForResults fetch N m k a).events =
        steps + nFetchCalls (pollForResults fetch N m (k + steps) (a + steps)).events ∧
      nTimerSets (pollForResults fetch N m k a).events TimerKind.interPoll =
        steps + nTimerSets (pollForResults fetch N m (k + steps) (a + steps)).events
          TimerKind.interPoll ∧
      (pollForResults fetch N m k a).outcome =
        (pollForResults fetch N m (k + steps) (a + steps)).outcome ∧
      (pollForResults fetch N m k a).events.filter (fun x => x.1.isMut) =
        (pollForResults fetch N m (k + steps) (a + steps)).events.filter
          (fun x => x.1.isMut) := by
  induction steps with
  | zero => intro k a _ _; simp
  | succ n ih =>
    intro k a hp hb
    have h0 := hp 0 (by omega)
    rw [Nat.add_zero] at h0
    obtain ⟨d, hk, hd⟩ := (isProcessing_iff (fetch k)).mp h0
    have ha : a < N := by omega
    have e1 : k + (n + 1) = (k + 1) + n := by omega
    have e2 : a + (n + 1) = (a + 1) + n := by omega
    obtain ⟨ih1, ih2, ih3, ih4⟩ := ih (k + 1) (a + 1)
      (fun j hj => by
        have hjp := hp (j + 1) (by omega)
        have e3 : k + (j + 1) = (k + 1) + j := by omega
        rwa [e3] at hjp)
      (by omega)
    rw [pollForResults_rec_step fetch N m k a d hk ⟨hd, ha⟩, e1, e2]
    refine ⟨?_, ?_, ?_, ?_⟩
    · simp only [nFetchCalls, List.countP_cons] at ih1 ⊢
      simp only [ih1]
      simp
      omega
    · simp only [nTimerSets, List.countP_cons] at ih2 ⊢
      simp only [ih2]
      simp
      omega
    · exact ih3
    · simp only [List.filter_cons]
      simpa [Ev.isMut] using ih4

/-- The inter-poll delay is scheduled (and `attempts` incremented) at
most `maxAttempts - attempts` times, because the recursion guard
requires `attempts < maxAttempts`. -/
theorem pollForResults_interPoll_le (fetch : Nat → FetchResult) (N : Nat) (m : Nat → Bool) :
    ∀ k a : Nat,
      nTimerSets (pollForResults fetch N m k a).events TimerKind.interPoll ≤ N - a := by
  intro k a
  induction k, a using pollForResults.induct fetch N m with
  | case1 k a hk =>
    rw [pollForResults_err_step fetch N m k a hk]
    simp [nTimerSets, List.countP_append]
    split <;> simp
  | case2 k a d hk hgo ih =>
    rw [pollForResults_rec_step fetch N m k a d hk hgo]
    simp only [nTimerSets, List.countP_cons] at ih ⊢
    simp
    omega
  | case3 k a d hk hstop =>
    rw [pollForResults_stop_step fetch N m k a d hk hstop]
    simp [nTimerSets, List.countP_append]
    split <;> simp

/-- Every state mutation executed by the poll loop carries a true
liveness flag: the `setData` and `setError` sites are both guarded by
`isMounted.current`, so no mutation of the poll loop happens after the
view detaches. -/
theorem pollForResults_muts_guarded (fetch : Nat → FetchResult) (N : Nat) (m : Nat → Bool) :
    ∀ k a : Nat, nMutsAfterDetach (pollForResults fetch N m k a).events = 0 := by
  intro k a
  induction k, a using pollForResults.induct fetch N m with
  | case1 k a hk =>
    rw [pollForResults_err_step fetch N m k a hk]
    simp [nMutsAfterDetach, List.countP_append, Ev.isMut]
  | case2 k a d hk hgo ih =>
    rw [pollForResults_rec_step fetch N m k a d hk hgo]
    simpa [nMutsAfterDetach, List.countP_cons, Ev.isMut] using ih
  | case3 k a d hk hstop =>
    rw [pollForResults_stop_step fetch N m k a d hk hstop]
    simp [nMutsAfterDetach, List.countP_append, Ev.isMut]

/-- When the view never detaches, no bare timer of the poll loop fires
after the (nonexistent) detach instant. -/
theorem pollForResults_fires_mounted (fetch : Nat → FetchResult) (N : Nat) (m : Nat → Bool)
    (hm : ∀ t, m t = true) :
    ∀ k a : Nat, nLateBareTimerFires (pollForResults fetch N m k a).events = 0 := by
  intro k a
  induction k, a using pollForResults.induct fetch N m with
  | case1 k a hk =>
    rw [pollForResults_err_step fetch N m k a hk]
    simp [nLateBareTimerFires, List.countP_append, Ev.isBareTimerFire, hm]
  | case2 k a d hk hgo ih =>
    rw [pollForResults_rec_step fetch N m k a d hk hgo]
    simpa [nLateBareTimerFires, List.countP_cons, Ev.isBareTimerFire, hm] using ih
  | case3 k a d hk hstop =>
    rw [pollForResults_stop_step fetch N m k a d hk hstop]
    simp [nLateBareTimerFires, List.countP_append, Ev.isBareTimerFire, hm]

/-- A poll run that resolved through its `catch` never executed
`setData`: the error branch only sets the error slot. -/
theorem pollForResults_errored_no_setData (fetch : Nat → FetchResult) (N : Nat)
    (m : Nat → Bool) :
    ∀ k a : Nat,
      (pollForResults fetch N m k a).outcome = PollOutcome.errored →
      nSetDataMuts (pollForResults fetch N m k a).events = 0 := by
  intro k a
  induction k, a using pollForResults.induct fetch N m with
  | case1 k a hk =>
    intro _
    rw [pollForResults_err_step fetch N m k a hk]
    simp [nSetDataMuts, List.countP_append, Ev.isSetData]
  | case2 k a d hk hgo ih =>
    intro ho
    rw [pollForResults_rec_step fetch N m k a d hk hgo] at ho ⊢
    simp only at ho
    simpa [nSetDataMuts, List.countP_cons, Ev.isSetData] using ih ho
  | case3 k a d hk hstop =>
    intro ho
    rw [pollForResults_stop_step fetch N m k a d hk hstop] at ho
    simp at ho

/-- If no fetch of the cycle rejects, the poll loop never executes
`setError`. -/
theorem pollForResults_no_err_no_setError (fetch : Nat → FetchResult) (N : Nat)
    (m : Nat → Bool) (hf : ∀ j, fetch j ≠ FetchResult.err) :
    ∀ k a : Nat, nSetErrorMuts (pollForResults fetch N m k a).events = 0 := by
  intro k a
  induction k, a using pollForResults.induct fetch N m with
  | case1 k a hk => exact absurd hk (hf k)
  | case2 k a d hk hgo ih =>
    rw [pollForResults_rec_step fetch N m k a d hk hgo]
    simpa [nSetErrorMuts, List.countP_cons, Ev.isSetError] using ih
  | case3 k a d hk hstop =>
    rw [pollForResults_stop_step fetch N m k a d hk hstop]
    simp [nSetErrorMuts, List.countP_append, Ev.isSetError]

/-- The poll loop never executes `setShowSuccessMessage`. -/
theorem pollForResults_no_setShow (fetch : Nat → FetchResult) (N : Nat) (m : Nat → Bool) :
    ∀ k a : Nat, nSetShowMuts (pollForResults fetch N m k a).events = 0 := by
  intro k a
  induction k, a using pollForResults.induct fetch N m with
  | case1 k a hk =>
    rw [pollForResults_err_step fetch N m k a hk]
    simp [nSetShowMuts, List.countP_append, Ev.isSetShowSuccess]
  | case2 k a d hk hgo ih =>
    rw [pollForResults_rec_step fetch N m k a d hk hgo]
    simpa [nSetShowMuts, List.countP_cons, Ev.isSetShowSuccess] using ih
  | case3 k a d hk hstop =>
    rw [pollForResults_stop_step fetch N m k a d hk hstop]
    simp [nSetShowMuts, List.countP_append, Ev.isSetShowSuccess]

/- ### Replay lemmas -/

theorem applyEvents_append (s : ViewState) (l₁ l₂ : List (Ev × Bool)) :
    applyEvents s (l₁ ++ l₂) = applyEvents (applyEvents s l₁) l₂ := by
  simp [applyEvents, List.foldl_append]

theorem applyEvents_cons (s : ViewState) (e : Ev × Bool) (tl : List (Ev × Bool)) :
    applyEvents s (e :: tl) =
      applyEvents (match e.1 with | Ev.mut m => applyMut s m | _ => s) tl := by
  obtain ⟨ev, b⟩ := e
  cases ev <;> rfl

theorem applyEvents_data_eq (evs : List (Ev × Bool)) :
    nSetDataMuts evs = 0 → ∀ s : ViewState, (applyEvents s evs).data = s.data := by
  induction evs with
  | nil => intro _ s; rfl
  | cons e tl ih =>
    intro h s
    rw [nSetDataMuts, List.countP_cons] at h
    have h1 : nSetDataMuts tl = 0 := by rw [nSetDataMuts]; omega
    have h2 : e.1.isSetData = false := by
      rcases hv : e.1.isSetData with _ | _
      · rfl
      · simp [hv] at h
    rw [applyEvents_cons, ih h1]
    rcases he : e.1 with m | _ | _ | _ | t | t
    · rw [he] at h2
      cases m with
      | setData d => simp [Ev.isSetData] at h2
      | setLoading b => simp [applyMut]
      | setError msg => simp [applyMut]
      | setReanalyzing b => simp [applyMut]
      | setShowSuccessMessage b => simp [applyMut]
    all_goals rfl

theorem applyEvents_error_eq (evs : List (Ev × Bool)) :
    nSetErrorMuts evs = 0 → ∀ s : ViewState, (applyEvents s evs).error = s.error := by
  induction evs with
  | nil => intro _ s; rfl
  | cons e tl ih =>
    intro h s
    rw [nSetErrorMuts, List.countP_cons] at h
    have h1 : nSetErrorMuts tl = 0 := by rw [nSetErrorMuts]; omega
    have h2 : e.1.isSetError = false := by
      rcases hv : e.1.isSetError with _ | _
      · rfl
      · simp [hv] at h
    rw [applyEvents_cons, ih h1]
    rcases he : e.1 with m | _ | _ | _ | t | t
    · rw [he] at h2
      cases m with
      | setData d => simp [applyMut]
      | setLoading b => simp [applyMut]
      | setError msg => simp [Ev.isSetError] at h2
      | setReanalyzing b => simp [applyMut]
      | setShowSuccessMessage b => simp [applyMut]
    all_goals rfl

theorem applyEvents_show_eq (evs : List (Ev × Bool)) :
    nSetShowMuts evs = 0 →
      ∀ s : ViewState, (applyEvents s evs).showSuccessMessage = s.showSuccessMessage := by
  induction evs with
  | nil => intro _ s; rfl
  | cons e tl ih =>
    intro h s
    rw [nSetShowMuts, List.countP_cons] at h
    have h1 : nSetShowMuts tl = 0 := by rw [nSetShowMuts]; omega
    have h2 : e.1.isSetShowSuccess = false := by
      rcases hv : e.1.isSetShowSuccess with _ | _
      · rfl
      · simp [hv] at h
    rw [applyEvents_cons, ih h1]
    rcases he : e.1 with m | _ | _ | _ | t | t
    · rw [he] at h2
      cases m with
      | setData d => simp [applyMut]
      | setLoading b => simp [applyMut]
      | setError msg => simp [applyMut]
      | setReanalyzing b => simp [applyMut]
      | setShowSuccessMessage b => simp [Ev.isSetShowSuccess] at h2
    all_goals rfl

/- ### Liveness-flag facts -/

theorem mountedFn_none_eq (t : Nat) : mountedFn none t = true := rfl

/-- Every detach instant of a cycle lies strictly after the synchronous
start of the click handler, so the liveness flag reads true at
point 0. -/
theorem mounted_at_zero (d : DetachPoint) : mountedFn d.time 0 = true := by
  cases d <;> simp [DetachPoint.time, mountedFn]

/- ### Cycle-level lemmas -/

/-- Every state mutation executed anywhere in a reanalysis cycle carries
a true liveness flag: the mutations before the first `await` run at
point 0 (before any possible detach), and every later mutation site is
guarded by `isMounted.current`. -/
theorem handleReanalyze_muts_guarded (trig : Bool) (fetch : Nat → FetchResult) (N : Nat)
    (m : Nat → Bool) (hm0 : m 0 = true) :
    nMutsAfterDetach (handleReanalyze trig fetch N m) = 0 := by
  have hp := pollForResults_muts_guarded fetch N m 1 0
  rw [nMutsAfterDetach] at hp
  cases trig with
  | false =>
    cases hm1 : m 1 <;>
      simp [handleReanalyze, nMutsAfterDetach, startEvs, triggerFailEvs,
        List.countP_append, List.countP_cons, Ev.isMut, hm0, hm1]
  | true =>
    have hsplit : handleReanalyze true fetch N m =
        startEvs m ++
          [(Ev.timerSet TimerKind.settling, m 1), (Ev.timerFired TimerKind.settling, m 2)] ++
          (pollForResults fetch N m 1 0).events ++
          afterPollEvs m (pollForResults fetch N m 1 0).endPoint := rfl
    rw [hsplit, nMutsAfterDetach, List.countP_append, List.countP_append,
      List.countP_append]
    have h1 : List.countP (fun x => x.1.isMut && !x.2) (startEvs m) = 0 := by
      simp [startEvs, List.countP_cons, Ev.isMut, hm0]
    have h2 : List.countP (fun x => x.1.isMut && !x.2)
        [(Ev.timerSet TimerKind.settling, m 1), (Ev.timerFired TimerKind.settling, m 2)] = 0 := by
      simp [List.countP_cons, Ev.isMut]
    have h4 : List.countP (fun x => x.1.isMut && !x.2)
        (afterPollEvs m (pollForResults fetch N m 1 0).endPoint) = 0 := by
      cases hmp : m (pollForResults fetch N m 1 0).endPoint <;>
        simp [afterPollEvs, hmp, List.countP_cons, Ev.isMut]
    omega

/-- When the view never detaches, no bare timer fires after the
(nonexistent) detach instant. -/
theorem handleReanalyze_never_fires (trig : Bool) (fetch : Nat → FetchResult) (N : Nat) :
    nLateBareTimerFires (handleReanalyze trig fetch N (mountedFn none)) = 0 := by
  have hp := pollForResults_fires_mounted fetch N (mountedFn none)
    (fun t => rfl) 1 0
  rw [nLateBareTimerFires] at hp
  cases trig with
  | false =>
    cases hm1 : mountedFn none 1 <;>
      simp [handleReanalyze, nLateBareTimerFires, startEvs, triggerFailEvs,
        List.countP_append, List.countP_cons, Ev.isBareTimerFire, mountedFn, hm1]
  | true =>
    have hsplit : handleReanalyze true fetch N (mountedFn none) =
        startEvs (mountedFn none) ++
          [(Ev.timerSet TimerKind.settling, mountedFn none 1),
           (Ev.timerFired TimerKind.settling, mountedFn none 2)] ++
          (pollForResults fetch N (mountedFn none) 1 0).events ++
          afterPollEvs (mountedFn none)
            (pollForResults fetch N (mountedFn none) 1 0).endPoint := rfl
    rw [hsplit, nLateBareTimerFires, List.countP_append, List.countP_append,
      List.countP_append]
    have h1 : List.countP (fun x => x.1.isBareTimerFire && !x.2)
        (startEvs (mountedFn none)) = 0 := by
      simp [startEvs, List.countP_cons, Ev.isBareTimerFire]
    have h2 : List.countP (fun x => x.1.isBareTimerFire && !x.2)
        [(Ev.timerSet TimerKind.settling, mountedFn none 1),
         (Ev.timerFired TimerKind.settling, mountedFn none 2)] = 0 := by
      simp [List.countP_cons, Ev.isBareTimerFire, mountedFn]
    have h4 : List.countP (fun x => x.1.isBareTimerFire && !x.2)
        (afterPollEvs (mountedFn none)
          (pollForResults fetch N (mountedFn none) 1 0).endPoint) = 0 := by
      simp [afterPollEvs, mountedFn, List.countP_cons, Ev.isBareTimerFire]
    omega

/-- A cycle whose trigger call rejects runs no timer at all: the
settling delay is scheduled only after a resolved trigger. -/
theorem handleReanalyze_triggerFail_fires (fetch : Nat → FetchResult) (N : Nat)
    (m : Nat → Bool) :
    nLateBareTimerFires (handleReanalyze false fetch N m) = 0 := by
  cases hm1 : m 1 <;>
    simp [handleReanalyze, nLateBareTimerFires, startEvs, triggerFailEvs,
      List.countP_append, List.countP_cons, Ev.isBareTimerFire, hm1]

/-- Final view state of a cycle whose trigger resolved, none of whose
fetches rejected, and whose view never detached: the error slot holds
the empty string written at the start of the cycle, the success
notification flag ends true, and `reanalyzing` ends false. -/
theorem handleReanalyze_clean_final (fetch : Nat → FetchResult) (N : Nat)
    (hf : ∀ j, fetch j ≠ FetchResult.err) (s : ViewState) :
    (applyEvents s (handleReanalyze true fetch N (mountedFn none))).error = "" ∧
    (applyEvents s (handleReanalyze true fetch N (mountedFn none))).showSuccessMessage
      = true ∧
    (applyEvents s (handleReanalyze true fetch N (mountedFn none))).reanalyzing = false := by
  have hsplit : handleReanalyze true fetch N (mountedFn none) =
      startEvs (mountedFn none) ++
        [(Ev.timerSet TimerKind.settling, mountedFn none 1),
         (Ev.timerFired TimerKind.settling, mountedFn none 2)] ++
        (pollForResults fetch N (mountedFn none) 1 0).events ++
        afterPollEvs (mountedFn none)
          (pollForResults fetch N (mountedFn none) 1 0).endPoint := rfl
  rw [hsplit, applyEvents_append, applyEvents_append, applyEvents_append]
  set s2 := applyEvents (applyEvents s (startEvs (mountedFn none)))
      [(Ev.timerSet TimerKind.settling, mountedFn none 1),
       (Ev.timerFired TimerKind.settling, mountedFn none 2)] with hs2
  set s3 := applyEvents s2 (pollForResults fetch N (mountedFn none) 1 0).events with hs3
  have herr3 : s3.error = "" := by
    rw [hs3, applyEvents_error_eq _ (pollForResults_no_err_no_setError fetch N _ hf 1 0) s2]
    rw [hs2]
    rfl
  have hap : afterPollEvs (mountedFn none)
      (pollForResults fetch N (mountedFn none) 1 0).endPoint =
      [(Ev.mut (Mut.setShowSuccessMessage true), true),
       (Ev.timerSet TimerKind.successClear, true),
       (Ev.mut (Mut.setReanalyzing false), true)] := by
    simp [afterPollEvs, mountedFn]
  rw [hap]
  refine ⟨?_, ?_, ?_⟩ <;> simp [applyEvents, applyMut, herr3]

/-- Without a route-parameter change, the interval closure's captured
`data` binding stays the mount-time `null`. -/
theorem runMount_no_idChange (acts : List Act) (h : Act.idChange ∉ acts) :
    (runMount acts).captured = none := by
  have h2 : ∀ l : List Act, Act.idChange ∉ l → ∀ s : MountState, s.captured = none →
      (l.foldl stepMount s).captured = none := by
    intro l
    induction l with
    | nil => intro _ s hs; exact hs
    | cons a tl ih =>
      intro hmem s hs
      rw [List.foldl_cons]
      have hstep : (stepMount s a).captured = none := by
        cases a with
        | load d => simpa [stepMount] using hs
        | idChange => exact absurd (List.mem_cons_self _ _) hmem
        | startCycle =>
          simp only [stepMount]
          split
          · simpa using hs
          · exact hs
        | endCycle => simpa [stepMount] using hs
      exact ih (fun hm => hmem (List.mem_cons_of_mem _ hm)) (stepMount s a) hstep
  exact h2 acts h initialMount rfl

/- ### Claim theorems -/

/-- Claim C1, amended: for every reanalysis cycle and every detach
instant, no observable state mutation (setData, setError,
setShowSuccessMessage, setReanalyzing) occurs after the detach instant;
and when the view never detaches, or when the trigger call rejects (so
that no settling or inter-poll timer is ever scheduled), no
uncancellable timer fires after a detach.  The original claim's further
assertion — that no pending timer remains scheduled after a detach
during triggering, settling or polling — is false, because the settling
delay and the inter-poll delay are bare `setTimeout` calls inside
promises that the unmount cleanup cannot clear
(see the counterexample). -/
theorem c1_no_mutation_after_detach (trig : Bool) (fetch : Nat → FetchResult) (N : Nat)
    (d : DetachPoint) :
    nMutsAfterDetach (runCycle trig fetch N d) = 0 ∧
    nLateBareTimerFires (runCycle trig fetch N DetachPoint.never) = 0 ∧
    nLateBareTimerFires (runCycle false fetch N d) = 0 :=
  ⟨handleReanalyze_muts_guarded trig fetch N (mountedFn d.time) (mounted_at_zero d),
   handleReanalyze_never_fires trig fetch N,
   handleReanalyze_triggerFail_fires fetch N (mountedFn d.time)⟩

/-- Claim C1, counterexample: detaching during the settling delay of a
cycle whose trigger resolved leaves the 2000 ms settling timer
scheduled — it fires after the detach instant (and the poll loop then
runs inertly), so the claim's "zero pending timers remain scheduled" is
false. -/
theorem c1_counterexample :
    nLateBareTimerFires
      (runCycle true (fun _ => FetchResult.ok doneResp) 15 DetachPoint.duringSettling) = 1 := by
  simp [runCycle, handleReanalyze, pollForResults, startEvs, afterPollEvs,
    DetachPoint.time, mountedFn, doneResp, nLateBareTimerFires, Ev.isBareTimerFire,
    List.countP_cons, List.countP_append]

/-- Claim C2, amended: a poll loop with budget `maxAttempts = N` all of
whose fetches return records with status `processing` makes exactly
`N + 1` calls to `getReference` (not `N`: the guard
`attempts < maxAttempts` is tested before the increment, and the fetch
of each iteration happens before the guard), separated by `N` inter-poll
delays, and then resolves through the `setData` branch carrying the
still-`processing` record — the inconclusive outcome — with no error
raised. -/
theorem c2_budget_exhaustion (fetch : Nat → FetchResult) (N : Nat) (m : Nat → Bool)
    (hp : ∀ j, (fetch j).isProcessing = true) :
    nFetchCalls (pollForResults fetch N m 1 0).events = N + 1 ∧
    nTimerSets (pollForResults fetch N m 1 0).events TimerKind.interPoll = N ∧
    ∃ d, (pollForResults fetch N m 1 0).outcome = PollOutcome.stored d ∧
      d.reference.status = Status.processing := by
  obtain ⟨h1, h2, h3, -⟩ := pollForResults_unroll fetch N m N 1 0
    (fun j _ => hp (1 + j)) (by omega)
  obtain ⟨d, hk, hd⟩ := (isProcessing_iff (fetch (1 + N))).mp (hp (1 + N))
  have hstop : ¬(d.reference.status = Status.processing ∧ 0 + N < N) := by
    rintro ⟨-, hlt⟩
    omega
  have htail := pollForResults_stop_step fetch N m (1 + N) (0 + N) d hk hstop
  have htc : nFetchCalls (pollForResults fetch N m (1 + N) (0 + N)).events = 1 := by
    rw [htail]
    cases hmm : m (2 * (1 + N) + 1) <;>
      simp [nFetchCalls, List.countP_append, List.countP_cons, hmm]
  have hts : nTimerSets (pollForResults fetch N m (1 + N) (0 + N)).events
      TimerKind.interPoll = 0 := by
    rw [htail]
    cases hmm : m (2 * (1 + N) + 1) <;>
      simp [nTimerSets, List.countP_append, List.countP_cons, hmm]
  have ho : (pollForResults fetch N m (1 + N) (0 + N)).outcome = PollOutcome.stored d := by
    rw [htail]
  refine ⟨by rw [h1, htc], by rw [h2, hts]; omega, d, by rw [h3, ho], hd⟩

/-- Claim C2, witness: the amended theorem applied at budget 3 with a
constant `processing` oracle. -/
theorem c2_budget_exhaustion_witness :
    nFetchCalls (pollForResults (fun _ => FetchResult.ok procResp) 3 (mountedFn none) 1 0).events
        = 3 + 1 ∧
    nTimerSets (pollForResults (fun _ => FetchResult.ok procResp) 3 (mountedFn none) 1 0).events
        TimerKind.interPoll = 3 ∧
    ∃ d, (pollForResults (fun _ => FetchResult.ok procResp) 3 (mountedFn none) 1 0).outcome
        = PollOutcome.stored d ∧ d.reference.status = Status.processing :=
  c2_budget_exhaustion (fun _ => FetchResult.ok procResp) 3 (mountedFn none)
    (fun _ => rfl)

/-- Claim C2, counterexample: with `maxAttempts = 15` and every fetch
returning a `processing` record (the spec's own scenario), the loop
makes 16 `getReference` calls, not the 15 the claim states. -/
theorem c2_counterexample :
    nFetchCalls
        (pollForResults (fun _ => FetchResult.ok procResp) 15 (mountedFn none) 1 0).events
      = 16 ∧
    nFetchCalls
        (pollForResults (fun _ => FetchResult.ok procResp) 15 (mountedFn none) 1 0).events
      ≠ 15 := by
  have h : nFetchCalls
      (pollForResults (fun _ => FetchResult.ok procResp) 15 (mountedFn none) 1 0).events
      = 16 := by
    simp [pollForResults, procResp, mountedFn]
    decide
  exact ⟨h, by rw [h]; decide⟩

/-- Claim C3, amended: a rejected fetch during the poll loop aborts the
loop at once instead of being retried: if the first `steps` fetches
return `processing` records and fetch `steps + 1` rejects (within the
attempt budget), the loop makes exactly `steps + 1` calls, resolves
through its `catch`, schedules no further inter-poll delay (the error is
not counted toward the attempt budget), and — when the view is still
mounted — surfaces the error individually by writing the polling error
message into the error slot. -/
theorem c3_poll_error_aborts (fetch : Nat → FetchResult) (N steps : Nat) (m : Nat → Bool)
    (hp : ∀ j, j < steps → (fetch (1 + j)).isProcessing = true)
    (he : fetch (1 + steps) = FetchResult.err)
    (hs : steps ≤ N) :
    nFetchCalls (pollForResults fetch N m 1 0).events = steps + 1 ∧
    (pollForResults fetch N m 1 0).outcome = PollOutcome.errored ∧
    nTimerSets (pollForResults fetch N m 1 0).events TimerKind.interPoll = steps ∧
    (m (2 * (1 + steps) + 1) = true →
      hasEv (pollForResults fetch N m 1 0).events
        (Ev.mut (Mut.setError pollErrMsg)) = true) := by
  obtain ⟨h1, h2, h3, h4⟩ := pollForResults_unroll fetch N m steps 1 0 hp (by omega)
  have htail := pollForResults_err_step fetch N m (1 + steps) (0 + steps) he
  have htc : nFetchCalls (pollForResults fetch N m (1 + steps) (0 + steps)).events = 1 := by
    rw [htail]
    cases hmm : m (2 * (1 + steps) + 1) <;>
      simp [nFetchCalls, List.countP_append, List.countP_cons, hmm]
  have hts : nTimerSets (pollForResults fetch N m (1 + steps) (0 + steps)).events
      TimerKind.interPoll = 0 := by
    rw [htail]
    cases hmm : m (2 * (1 + steps) + 1) <;>
      simp [nTimerSets, List.countP_append, List.countP_cons, hmm]
  have ho : (pollForResults fetch N m (1 + steps) (0 + steps)).outcome
      = PollOutcome.errored := by rw [htail]
  refine ⟨by rw [h1, htc], by rw [h3, ho], by rw [h2, hts]; omega, ?_⟩
  intro hmm
  have hpair : (Ev.mut (Mut.setError pollErrMsg), true)
      ∈ (pollForResults fetch N m (1 + steps) (0 + steps)).events := by
    rw [htail]
    simp [hmm]
  have hfil : (Ev.mut (Mut.setError pollErrMsg), true)
      ∈ (pollForResults fetch N m (1 + steps) (0 + steps)).events.filter
          (fun x => x.1.isMut) :=
    List.mem_filter.mpr ⟨hpair, by simp [Ev.isMut]⟩
  rw [← h4] at hfil
  have hmem := (List.mem_filter.mp hfil).1
  simp only [hasEv, List.any_eq_true]
  exact ⟨_, hmem, by simp⟩

/-- Claim C3, witness: the amended theorem applied with the error on the
very first fetch, budget 15, and a mounted view. -/
theorem c3_poll_error_aborts_witness :
    nFetchCalls (pollForResults errThenDone 15 (mountedFn none) 1 0).events = 0 + 1 ∧
    (pollForResults errThenDone 15 (mountedFn none) 1 0).outcome = PollOutcome.errored ∧
    nTimerSets (pollForResults errThenDone 15 (mountedFn none) 1 0).events
      TimerKind.interPoll = 0 ∧
    (mountedFn none (2 * (1 + 0) + 1) = true →
      hasEv (pollForResults errThenDone 15 (mountedFn none) 1 0).events
        (Ev.mut (Mut.setError pollErrMsg)) = true) :=
  c3_poll_error_aborts errThenDone 15 0 (mountedFn none)
    (fun j h => absurd h (Nat.not_lt_zero j)) rfl (by omega)

/-- Claim C3, counterexample: with an oracle whose first fetch rejects
and whose second fetch would return a completed record well within the
budget, the loop still stops after one call with the errored outcome
and writes the polling error into the error slot — it does not continue
polling, does not count the error toward the attempt budget, and does
surface the error individually, contradicting the claim. -/
theorem c3_counterexample :
    nFetchCalls (pollForResults errThenDone 15 (mountedFn none) 1 0).events = 1 ∧
    (pollForResults errThenDone 15 (mountedFn none) 1 0).outcome = PollOutcome.errored ∧
    hasEv (pollForResults errThenDone 15 (mountedFn none) 1 0).events
      (Ev.mut (Mut.setError pollErrMsg)) = true := by
  have h := pollForResults_err_step errThenDone 15 (mountedFn none) 1 0 rfl
  rw [h]
  refine ⟨?_, rfl, ?_⟩ <;>
    simp [nFetchCalls, hasEv, mountedFn, List.countP_cons, List.countP_append]

/-- Claim C4, amended: within a mount whose route parameter never
changes, the refresher's interval closure keeps the `null` `data`
binding captured at mount time, so its tick condition is false and the
refresher issues no fetch at all — in particular never concurrently with
the poller.  The original claim's mechanism — suppression of the
refresher whenever the poller's phase is not `idle` — does not exist in
the code: the tick consults only the captured `data` binding, so after a
route-parameter change that captured a `processing` record the refresher
fetches on every tick regardless of the poller's phase (see the
counterexample). -/
theorem c4_refresher_inert_without_param_change (acts : List Act)
    (h : Act.idChange ∉ acts) :
    (runMount acts).captured = none ∧
    intervalTickFires (runMount acts).captured = false := by
  have hc := runMount_no_idChange acts h
  exact ⟨hc, by rw [hc]; rfl⟩

/-- Claim C4, witness: the amended theorem applied to a mount that loads
a completed record and runs one full reanalysis cycle. -/
theorem c4_refresher_inert_witness :
    (runMount [Act.load doneResp, Act.startCycle, Act.endCycle]).captured = none ∧
    intervalTickFires
      (runMount [Act.load doneResp, Act.startCycle, Act.endCycle]).captured = false :=
  c4_refresher_inert_without_param_change
    [Act.load doneResp, Act.startCycle, Act.endCycle] (by decide)

/-- Claim C4, counterexample: a reachable view state in which a
reanalysis cycle is in flight and the refresher's tick condition is
nevertheless true, so refresher and poller fetch concurrently.  The
state is reached by loading a `processing` record, changing the route
parameter (the re-installed interval's closure captures the stale
`processing` record), loading the new parameter's `failed` record, and
clicking the (enabled) Retry button. -/
theorem c4_counterexample :
    (runMount [Act.load procResp, Act.idChange, Act.load failedResp,
        Act.startCycle]).pollerActive = true ∧
    intervalTickFires (runMount [Act.load procResp, Act.idChange, Act.load failedResp,
        Act.startCycle]).captured = true := by
  decide

/-- Claim C5, amended: the outcome indications are mutually exclusive
only for cycles without a poll fetch error: a cycle whose trigger
resolves and none of whose fetches reject ends with an empty error slot
and the success notification active, and a cycle whose trigger rejects
ends with the trigger-failure error and no success notification.  When a
poll fetch errs, however, both indications end up active simultaneously
(see the counterexample). -/
theorem c5_mutual_exclusion_without_poll_error (fetch : Nat → FetchResult) (N : Nat)
    (s : ViewState) (hf : ∀ j, fetch j ≠ FetchResult.err) :
    ((applyEvents s (runCycle true fetch N DetachPoint.never)).error = "" ∧
      (applyEvents s (runCycle true fetch N DetachPoint.never)).showSuccessMessage = true) ∧
    ((applyEvents s (runCycle false fetch N DetachPoint.never)).error = triggerErrMsg ∧
      (applyEvents s (runCycle false fetch N DetachPoint.never)).showSuccessMessage
        = false) := by
  obtain ⟨he, hs2, -⟩ := handleReanalyze_clean_final fetch N hf s
  have ht : applyEvents s (runCycle false fetch N DetachPoint.never) =
      { s with
        error := triggerErrMsg
        reanalyzing := false
        showSuccessMessage := false } := rfl
  exact ⟨⟨he, hs2⟩, by rw [ht], by rw [ht]⟩

/-- Claim C5, witness: the amended theorem applied to a two-attempt
cycle whose single fetch returns a completed record, starting from the
resting view state. -/
theorem c5_mutual_exclusion_witness :
    ((applyEvents restState
        (runCycle true (fun _ => FetchResult.ok doneResp) 2 DetachPoint.never)).error = "" ∧
      (applyEvents restState
        (runCycle true (fun _ => FetchResult.ok doneResp) 2
          DetachPoint.never)).showSuccessMessage = true) ∧
    ((applyEvents restState
        (runCycle false (fun _ => FetchResult.ok doneResp) 2 DetachPoint.never)).error
        = triggerErrMsg ∧
      (applyEvents restState
        (runCycle false (fun _ => FetchResult.ok doneResp) 2
          DetachPoint.never)).showSuccessMessage = false) :=
  c5_mutual_exclusion_without_poll_error (fun _ => FetchResult.ok doneResp) 2 restState
    (fun _ => by simp)

/-- Claim C5, counterexample: a cycle whose poll fetch rejects ends with
the error banner and the success notification rendered simultaneously —
the `catch` inside `pollForResults` swallows the rejection, so the
success block after `await pollForResults()` still runs. -/
theorem c5_counterexample :
    render (applyEvents restState
      (runCycle true (fun _ => FetchResult.err) 15 DetachPoint.never))
      = RenderResult.mainView true true := by
  have h := pollForResults_err_step (fun _ => FetchResult.err) 15
    (mountedFn DetachPoint.never.time) 1 0 rfl
  have hsplit : runCycle true (fun _ => FetchResult.err) 15 DetachPoint.never =
      startEvs (mountedFn DetachPoint.never.time) ++
        [(Ev.timerSet TimerKind.settling, mountedFn DetachPoint.never.time 1),
         (Ev.timerFired TimerKind.settling, mountedFn DetachPoint.never.time 2)] ++
        (pollForResults (fun _ => FetchResult.err) 15
          (mountedFn DetachPoint.never.time) 1 0).events ++
        afterPollEvs (mountedFn DetachPoint.never.time)
          (pollForResults (fun _ => FetchResult.err) 15
            (mountedFn DetachPoint.never.time) 1 0).endPoint := rfl
  rw [hsplit, h]
  decide

/-- Claim C6 (confirmed): if the first `k - 1` fetches of the poll loop
return `processing` records and the k-th fetch (k within the attempt
budget) returns a record with terminal status `completed` or `failed`,
the loop stops at call k: it makes exactly k `getReference` calls and
resolves through the `setData` branch carrying that record. -/
theorem c6_terminal_status_stops (fetch : Nat → FetchResult) (N k : Nat) (d : RespData)
    (m : Nat → Bool)
    (hp : ∀ j, 1 ≤ j → j < k → (fetch j).isProcessing = true)
    (hk : fetch k = FetchResult.ok d)
    (ht : d.reference.status = Status.completed ∨ d.reference.status = Status.failed)
    (h1 : 1 ≤ k) (hN : k ≤ N) :
    nFetchCalls (pollForResults fetch N m 1 0).events = k ∧
    (pollForResults fetch N m 1 0).outcome = PollOutcome.stored d := by
  obtain ⟨e1, -, e3, -⟩ := pollForResults_unroll fetch N m (k - 1) 1 0
    (fun j hj => hp (1 + j) (by omega) (by omega)) (by omega)
  have ek : 1 + (k - 1) = k := by omega
  rw [ek] at e1 e3
  have hstop : ¬(d.reference.status = Status.processing ∧ (0 + (k - 1)) < N) := by
    rintro ⟨hpr, -⟩
    rcases ht with h | h <;> rw [h] at hpr <;> exact Status.noConfusion hpr
  have htail := pollForResults_stop_step fetch N m k (0 + (k - 1)) d hk hstop
  have htc : nFetchCalls (pollForResults fetch N m k (0 + (k - 1))).events = 1 := by
    rw [htail]
    cases hmm : m (2 * k + 1) <;>
      simp [nFetchCalls, List.countP_append, List.countP_cons, hmm]
  have ho : (pollForResults fetch N m k (0 + (k - 1))).outcome
      = PollOutcome.stored d := by rw [htail]
  constructor
  · rw [e1, htc]; omega
  · rw [e3, ho]

/-- Claim C6, witness: the theorem applied to an oracle whose first
fetch returns `processing` and whose second returns the completed
record, with budget 15. -/
theorem c6_terminal_status_stops_witness :
    nFetchCalls (pollForResults procThenDone 15 (mountedFn none) 1 0).events = 2 ∧
    (pollForResults procThenDone 15 (mountedFn none) 1 0).outcome
      = PollOutcome.stored doneResp :=
  c6_terminal_status_stops procThenDone 15 2 doneResp (mountedFn none)
    (fun j hj1 hj2 => by
      have hj : j = 1 := by omega
      rw [hj]
      rfl)
    rfl (Or.inl rfl) (by omega) (by omega)

/-- Claim C7 (confirmed): a cycle whose trigger call rejects issues no
`getReference` call, never schedules the settling delay (so neither the
settling nor the polling phase is entered), and ends with the
trigger-failure message in the error slot, `reanalyzing` reset and no
success notification. -/
theorem c7_trigger_failure_no_fetch (fetch : Nat → FetchResult) (N : Nat) (s : ViewState) :
    nFetchCalls (runCycle false fetch N DetachPoint.never) = 0 ∧
    nTimerSets (runCycle false fetch N DetachPoint.never) TimerKind.settling = 0 ∧
    applyEvents s (runCycle false fetch N DetachPoint.never) =
      { s with
        error := triggerErrMsg
        reanalyzing := false
        showSuccessMessage := false } :=
  ⟨rfl, rfl, rfl⟩

/-- Claim C8 (confirmed): starting from `attempts = 0`, the attempt
counter of the poll loop never exceeds `maxAttempts`: it is incremented
(scheduling one inter-poll delay each time) only under the guard
`attempts < maxAttempts`, so its final — and hence largest — value,
which equals the number of inter-poll delays scheduled, is at most
`maxAttempts`. -/
theorem c8_attempts_bounded (fetch : Nat → FetchResult) (N : Nat) (m : Nat → Bool)
    (k : Nat) :
    nTimerSets (pollForResults fetch N m k 0).events TimerKind.interPoll ≤ N := by
  have h := pollForResults_interPoll_le fetch N m k 0
  simpa using h

/-- Claim C9 (confirmed): fetch failures leave the cached record
untouched.  The error branch of `fetchReport` writes only the error and
loading slots, and a poll run that resolved through its `catch` executed
no `setData`, so replaying its mutations leaves the `data` slot of any
state unchanged. -/
theorem c9_fetch_error_preserves_data (m : Bool) (s : ViewState)
    (fetch : Nat → FetchResult) (N : Nat) (ma : Nat → Bool) (k a : Nat) (s₂ : ViewState)
    (h : (pollForResults fetch N ma k a).outcome = PollOutcome.errored) :
    (fetchReport FetchResult.err m s).data = s.data ∧
    (applyEvents s₂ (pollForResults fetch N ma k a).events).data = s₂.data := by
  constructor
  · cases m <;> rfl
  · exact applyEvents_data_eq _ (pollForResults_errored_no_setData fetch N ma k a h) s₂

/-- Claim C9, witness: the theorem applied to a poll run whose first
fetch rejects, starting from the resting view state. -/
theorem c9_fetch_error_preserves_data_witness :
    (fetchReport FetchResult.err true restState).data = restState.data ∧
    (applyEvents restState
      (pollForResults (fun _ => FetchResult.err) 15 (mountedFn none) 1 0).events).data
      = restState.data :=
  c9_fetch_error_preserves_data true restState (fun _ => FetchResult.err) 15
    (mountedFn none) 1 0 restState (by simp [pollForResults])

/-- Claim C10 (confirmed): the mount-time installation of the refresher
effect captures the initial `null` value of `data`, so the interval
tick's condition is false for the whole lifetime of that interval and
the refresher issues zero fetch calls during the mount, however many
ticks elapse. -/
theorem c10_stale_closure_no_fetch (ticks : Nat) :
    intervalTickFires initialMountCaptured = false ∧
    refresherFetchCount initialMountCaptured ticks = 0 := by
  constructor
  · rfl
  · simp [refresherFetchCount, intervalTickFires, initialMountCaptured]

end RefChecker
